import Mathlib

/-
Verification of the multi-source news extraction pipeline
(`news_scraper.py`, with the store read of `sentiment_analyzer.py`).

The scraped pages are modelled by the exact query results the code reads
from the parsed markup (BeautifulSoup finds by tag/class/id); each text
field holds what `get_text(strip=True)` returned for that element, and an
`Option` at each point where the corresponding find can come back empty or
an attribute access can raise. Fetch outcomes (`requests.get`, Selenium
navigation and explicit waits) are modelled by sum types with one
constructor per caught exception class.
-/

namespace StockNews

/-- JSON-like values appearing as fields of a scraped article record:
Python `None` becomes `null`, strings stay strings, and the only
list-valued field (`categories`) is a list of strings. -/
inductive JValue where
  | null : JValue
  | str : String → JValue
  | list : List String → JValue
  deriving DecidableEq, Repr

/-- A scraped article record: the Python dict appended by each extractor,
kept as an ordered association list of field names to values. -/
abbrev Record := List (String × JValue)

/-- Python `None`-or-string values as stored in a record field. -/
def JValue.ofOption : Option String → JValue
  | some s => JValue.str s
  | none => JValue.null

/-- `self.investopaper_base_url`. -/
def investopaper_base_url : String := "https://www.investopaper.com"

/-- `self.sharehub_base_url`. -/
def sharehub_base_url : String := "https://sharehubnepal.com"

/-- `self.nepsealpha_base_url`. -/
def nepsealpha_base_url : String := "https://www.nepsealpha.com"

/-- `self.sharesansar_base_url`. -/
def sharesansar_base_url : String := "https://www.sharesansar.com"

/-- `self.data_dir`. -/
def data_dir : String := "data"

/-- Python `'\n\n'.join(paragraphs)`. -/
def joinParagraphs : List String → String
  | [] => ""
  | [p] => p
  | p :: q :: ps => p ++ "\n\n" ++ joinParagraphs (q :: ps)

/-- Whether the first character list is a prefix of the second. -/
def isPrefixChars : List Char → List Char → Bool
  | [], _ => true
  | _ :: _, [] => false
  | a :: as, b :: bs => a = b && isPrefixChars as bs

/-- Python `s.startswith(pre)`. -/
def pyStartsWith (s pre : String) : Bool :=
  isPrefixChars pre.data s.data

/-- Python `s.strip()`: drop leading and trailing whitespace. -/
def pyStrip (s : String) : String :=
  ⟨((s.data.dropWhile Char.isWhitespace).reverse.dropWhile Char.isWhitespace).reverse⟩

/-- Chunks of a character list between occurrences of `sep`; `acc` holds
the reversed characters of the chunk being read. -/
def splitCharAux (sep : Char) : List Char → List Char → List String
  | [], acc => [⟨acc.reverse⟩]
  | c :: cs, acc =>
    if c = sep then ⟨acc.reverse⟩ :: splitCharAux sep cs []
    else splitCharAux sep cs (c :: acc)

/-- Python `s.split(sep)` for a one-character separator: at least one
chunk, the separators dropped. -/
def pySplitChar (sep : Char) (s : String) : List String :=
  splitCharAux sep s.data []

/-- The separator character of `split('|')`. -/
def pipeChar : Char := Char.ofNat 0x7c

/-- Python `s.lower()` on the ASCII symbols used here. -/
def pyLower (s : String) : String :=
  ⟨s.data.map Char.toLower⟩

/-- The boilerplate filter `text.startswith(('©', 'License:', 'Author:'))`
shared by the Investopaper, NepseAlpha and Sharesansar body extractors. -/
def boilerplate (t : String) : Bool :=
  pyStartsWith t "©" || pyStartsWith t "License:" || pyStartsWith t "Author:"

/-- `urljoin(base, rel)` for the absolute, path-free base URLs used here:
an already-absolute reference is kept, otherwise it is resolved against
the base. -/
def urljoin (base rel : String) : String :=
  if pyStartsWith rel "http://" || pyStartsWith rel "https://" then rel
  else if pyStartsWith rel "/" then base ++ rel
  else base ++ "/" ++ rel

/-- Outcome of an HTTP fetch with `requests.get`: the parsed page on
success, `requestError` for `requests.exceptions.RequestException`
(connection failure, timeout, or a non-success status raised by
`raise_for_status`), `otherError` for any other exception. -/
inductive HttpFetch (α : Type) where
  | ok : α → HttpFetch α
  | requestError : HttpFetch α
  | otherError : HttpFetch α
  deriving DecidableEq, Repr

/-- Outcome of a Selenium navigation plus explicit wait: the parsed page
on success, `timeout` for `TimeoutException` from the wait,
`webDriverError` for `WebDriverException`, `otherError` for any other
exception. -/
inductive DriverFetch (α : Type) where
  | ok : α → DriverFetch α
  | timeout : DriverFetch α
  | webDriverError : DriverFetch α
  | otherError : DriverFetch α
  deriving DecidableEq, Repr

/-! ### Investopaper (`_scrape_full_article_investopaper`, `_scrape_investopaper_news`) -/

/-- An Investopaper article detail page: `entryContent` is the
`div.entry-content` when present, holding the `get_text(strip=True)` of
each `<p>` left in it after the unwanted-element and recommended-block
removal. -/
structure InvestoArticlePage where
  entryContent : Option (List String)
  deriving DecidableEq, Repr

/-- `_scrape_full_article_investopaper`: body text of one Investopaper
article, or an error string. -/
def scrapeFullArticleInvestopaper : HttpFetch InvestoArticlePage → String
  | .requestError => "Error retrieving full article content"
  | .otherError => "Error retrieving full article content"
  | .ok page =>
    match page.entryContent with
    | none => "Full article content not found"
    | some texts =>
      let paragraphs := texts.filter (fun t => t ≠ "" && !boilerplate t)
      if paragraphs.isEmpty then "No readable content found"
      else joinParagraphs paragraphs

/-- The `h2.entry-title` element of an Investopaper listing item: its
stripped text, and its nested `<a>` when present (`anchor = some h?`,
with `h?` the `href` attribute, absent when the anchor has none). -/
structure InvestoTitleElement where
  text : String
  anchor : Option (Option String)
  deriving DecidableEq, Repr

/-- The `<img>` element of an Investopaper listing item, with its
optional `data-src` and `src` attributes. -/
structure InvestoImageElement where
  dataSrc : Option String
  src : Option String
  deriving DecidableEq, Repr

/-- One `<article>` of the Investopaper search-results listing.
`entryContentP` is `none` when the item has no `div.entry-content` (so
`.find('p')` on it raises and the item is skipped); otherwise it holds
the first `<p>` of that div, when one exists, as its raw `get_text()`
(a single text node, so `get_text(strip=True)` is its `trim`).
`articlePage` is the outcome of fetching this item's article link. -/
structure InvestoArticleItem where
  titleElement : Option InvestoTitleElement
  entryContentP : Option (Option String)
  categories : List String
  imageElement : Option InvestoImageElement
  articlePage : HttpFetch InvestoArticlePage
  deriving DecidableEq, Repr

/-- The Investopaper search-results page: the `div.article-container`
with its `<article>` children, when present. -/
structure InvestoListingPage where
  articleContainer : Option (List InvestoArticleItem)
  deriving DecidableEq, Repr

/-- `link = title_element.find('a')['href'] if title_element and
title_element.find('a') else "#"` — `none` when the anchor exists but
has no `href` (Python `KeyError`, caught by the per-item handler). -/
def investoLink : Option InvestoTitleElement → Option String
  | some te =>
    match te.anchor with
    | some (some href) => some href
    | some none => none
    | none => some "#"
  | none => some "#"

/-- The body of the per-article loop of `_scrape_investopaper_news`:
`none` when the item is skipped (`continue`, either explicit or via the
per-item exception handler), otherwise the appended record. -/
def investoItemRecord (item : InvestoArticleItem) : Option Record :=
  let title := match item.titleElement with
    | some te => te.text
    | none => "No title"
  match investoLink item.titleElement with
  | none => none
  | some link =>
    if link = "#" then none
    else
      match item.entryContentP with
      | none => none
      | some dateP =>
        let date_text := match dateP with
          | some s => pyStrip ((pySplitChar pipeChar (pyStrip s)).headD "")
          | none => "Unknown date"
        let summary := match dateP with
          | some s =>
            let content_parts := pySplitChar pipeChar s
            if content_parts.length > 1 then pyStrip (content_parts.getD 1 "") else ""
          | none => ""
        let image_url : JValue := match item.imageElement with
          | some img =>
            match img.dataSrc with
            | some d => JValue.str d
            | none =>
              match img.src with
              | some s => JValue.str s
              | none => JValue.null
          | none => JValue.null
        some [("title", JValue.str title),
              ("link", JValue.str link),
              ("date", JValue.str date_text),
              ("summary", JValue.str summary),
              ("full_content", JValue.str (scrapeFullArticleInvestopaper item.articlePage)),
              ("categories", JValue.list item.categories),
              ("image_url", image_url),
              ("source", JValue.str "Investopaper")]

/-- `_scrape_investopaper_news`: records scraped from the Investopaper
search results for a symbol. -/
def scrapeInvestopaperNews : HttpFetch InvestoListingPage → List Record
  | .requestError => []
  | .otherError => []
  | .ok page =>
    match page.articleContainer with
    | none => []
    | some articles => articles.filterMap investoItemRecord

/-! ### ShareHubNepal (`_scrape_full_article_sharehubnepal`, `_scrape_sharehubnepal_news`) -/

/-- A ShareHubNepal article detail page. `header` is the `header.py-3`
when present; its content is the stripped text of the date span
(`text-grey-500` + `font-normal`) when that span is found.
`postContent` is `div#post-content` when present, holding the
`get_text(strip=True)` of each of its `p`/`h2`–`h6` elements. -/
structure ShareHubArticlePage where
  header : Option (Option String)
  postContent : Option (List String)
  deriving DecidableEq, Repr

/-- `_scrape_full_article_sharehubnepal`: `(full_content, publish_date)`
for one ShareHubNepal article. -/
def scrapeFullArticleSharehubnepal :
    DriverFetch ShareHubArticlePage → String × Option String
  | .timeout => ("Timeout retrieving full article content", none)
  | .webDriverError => ("Error retrieving full article content", none)
  | .otherError => ("Error retrieving full article content", none)
  | .ok page =>
    let publish_date := match page.header with
      | some (some d) => some d
      | some none => none
      | none => none
    let full_content := match page.postContent with
      | none => "No readable content found"
      | some texts =>
        let content_parts := texts.filter (fun t => t ≠ "")
        if content_parts.isEmpty then "No readable content found"
        else joinParagraphs content_parts
    (full_content, publish_date)

/-- The `span.font-semibold` of a ShareHubNepal listing card: its
stripped text, and `find_parent('a')` when an enclosing anchor exists
(inner option: that anchor's `href` attribute). -/
structure ShareHubSpan where
  text : String
  parentAnchorHref : Option (Option String)
  deriving DecidableEq, Repr

/-- One news card of the ShareHubNepal company-news listing.
`firstAnchorHref` is the card's first `<a>` when present (inner option:
its `href` attribute); `titleSpan` its `span.font-semibold`;
`imageSrc` its `<img>` when present (inner option: the `src`
attribute); `articlePage` the outcome of fetching the card's article. -/
structure ShareHubNewsItem where
  firstAnchorHref : Option (Option String)
  titleSpan : Option ShareHubSpan
  imageSrc : Option (Option String)
  articlePage : DriverFetch ShareHubArticlePage
  deriving DecidableEq, Repr

/-- The ShareHubNepal company-news page: the grid container with its
news cards, when present. -/
structure ShareHubListingPage where
  newsContainer : Option (List ShareHubNewsItem)
  deriving DecidableEq, Repr

/-- The link resolution of one ShareHubNepal card: the first anchor's
`href` when that anchor has one, else the title span's parent anchor's
`href`; `none` when neither yields a link or the found link is the empty
string (`if not article_relative_url: continue`). -/
def sharehubItemLink (item : ShareHubNewsItem) : Option String :=
  let rel : Option String := match item.firstAnchorHref with
    | some (some h) => some h
    | _ =>
      match item.titleSpan with
      | some sp =>
        match sp.parentAnchorHref with
        | some (some h) => some h
        | _ => none
      | none => none
  match rel with
  | some h => if h = "" then none else some h
  | none => none

/-- The body of the per-card loop of `_scrape_sharehubnepal_news`:
`none` when the card is skipped, otherwise the appended record. -/
def sharehubItemRecord (item : ShareHubNewsItem) : Option Record :=
  match sharehubItemLink item with
  | none => none
  | some rel =>
    let article_url := urljoin sharehub_base_url rel
    let scraped := scrapeFullArticleSharehubnepal item.articlePage
    let full_content := scraped.1
    let publish_date := scraped.2
    let title := match item.titleSpan with
      | some sp => sp.text
      | none => ""
    let image_url : JValue := match item.imageSrc with
      | some (some s) => JValue.str s
      | some none => JValue.null
      | none => JValue.null
    some [("title", JValue.str title),
          ("link", JValue.str article_url),
          ("date", JValue.ofOption publish_date),
          ("summary", JValue.null),
          ("full_content", JValue.str full_content),
          ("categories", JValue.list []),
          ("image_url", image_url),
          ("source", JValue.str "ShareHubNepal")]

/-- `_scrape_sharehubnepal_news`: records scraped from the ShareHubNepal
company-news listing for a symbol. -/
def scrapeSharehubnepalNews : DriverFetch ShareHubListingPage → List Record
  | .timeout => []
  | .webDriverError => []
  | .otherError => []
  | .ok page =>
    match page.newsContainer with
    | none => []
    | some items =>
      if items.isEmpty then []
      else items.filterMap sharehubItemRecord

/-! ### NepseAlpha (`_scrape_full_article_nepsealpha`, `_scrape_nepsealpha_news`) -/

/-- A NepseAlpha article detail page: the stripped text of
`li.detail.date` when found, and `div#postDescriptions` when present,
holding the `get_text(strip=True)` of each of its `<p>` elements. -/
structure NepseAlphaArticlePage where
  detailDate : Option String
  postDescriptions : Option (List String)
  deriving DecidableEq, Repr

/-- `_scrape_full_article_nepsealpha`: `(content, article_date)` for one
NepseAlpha article. -/
def scrapeFullArticleNepsealpha :
    DriverFetch NepseAlphaArticlePage → String × Option String
  | .timeout => ("Timeout retrieving full article content", none)
  | .webDriverError => ("Error retrieving full article content", none)
  | .otherError => ("Error retrieving full article content", none)
  | .ok page =>
    match page.postDescriptions with
    | none => ("Content not found", page.detailDate)
    | some texts =>
      let paragraphs := texts.filter (fun t => t ≠ "" && !boilerplate t)
      let content := if paragraphs.isEmpty then "No readable content found"
        else joinParagraphs paragraphs
      (content, page.detailDate)

/-- An `<a>` found inside a news-table cell: its stripped text and its
`href` attribute when it has one (absent: Python `KeyError`, caught by
the per-row handler). -/
structure NewsAnchor where
  text : String
  href : Option String
  deriving DecidableEq, Repr

/-- One `<td>` of a news-table row: its stripped text and its first
`<a>` when present. -/
structure NewsCell where
  text : String
  anchor : Option NewsAnchor
  deriving DecidableEq, Repr

/-- One `<tr>` of a news table, together with the outcome of fetching
the article its link cell points to. -/
structure NewsTableRow (α : Type) where
  cells : List NewsCell
  articlePage : α
  deriving DecidableEq, Repr

/-- Outcome of preparing a site's news table after a successful
navigation: clicking the News tab can time out or fail, the wait for
the table can time out, the table or its `tbody` can be missing from
the parsed markup (`find('tbody')` on `None` raises, caught by the
extractor's general handler); otherwise the tbody's rows. -/
inductive TableListing (α : Type) where
  | tabMissing : TableListing α
  | tableTimeout : TableListing α
  | tableMissing : TableListing α
  | tbodyMissing : TableListing α
  | rows : List (NewsTableRow α) → TableListing α
  deriving DecidableEq, Repr

/-- The body of the per-row loop of `_scrape_nepsealpha_news`: `none`
when the row is skipped, otherwise the appended record. -/
def nepsealphaRowRecord
    (row : NewsTableRow (DriverFetch NepseAlphaArticlePage)) : Option Record :=
  if row.cells.length < 2 then none
  else
    let date_from_list := (row.cells.getD 0 ⟨"", none⟩).text
    match (row.cells.getD 1 ⟨"", none⟩).anchor with
    | none => none
    | some title_link =>
      match title_link.href with
      | none => none
      | some href =>
        let article_url := if pyStartsWith href "http" then href
          else urljoin nepsealpha_base_url href
        let scraped := scrapeFullArticleNepsealpha row.articlePage
        let full_content := scraped.1
        let article_date_from_page := scraped.2
        let final_date := match article_date_from_page with
          | some d => if d = "" then date_from_list else d
          | none => date_from_list
        some [("title", JValue.str title_link.text),
              ("link", JValue.str article_url),
              ("date", JValue.str final_date),
              ("summary", JValue.null),
              ("full_content", JValue.str full_content),
              ("categories", JValue.list []),
              ("image_url", JValue.null),
              ("source", JValue.str "NepseAlpha")]

/-- `_scrape_nepsealpha_news`: records scraped from the NepseAlpha news
table for a symbol. -/
def scrapeNepsealphaNews :
    DriverFetch (TableListing (DriverFetch NepseAlphaArticlePage)) → List Record
  | .timeout => []
  | .webDriverError => []
  | .otherError => []
  | .ok .tabMissing => []
  | .ok .tableTimeout => []
  | .ok .tableMissing => []
  | .ok .tbodyMissing => []
  | .ok (.rows rs) =>
    if rs.isEmpty then []
    else rs.filterMap nepsealphaRowRecord

/-! ### Sharesansar (`_scrape_full_article_sharesansar`, `_scrape_sharesansar_news`) -/

/-- A Sharesansar article detail page: `div#newsdetail-content` when
present, holding the `get_text(strip=True)` of each `<p>` left in it
after the unwanted-element removal. -/
structure SharesansarArticlePage where
  newsdetailContent : Option (List String)
  deriving DecidableEq, Repr

/-- `_scrape_full_article_sharesansar`: body text of one Sharesansar
article, or an error string. -/
def scrapeFullArticleSharesansar : DriverFetch SharesansarArticlePage → String
  | .timeout => "Timeout retrieving full article content"
  | .webDriverError => "Error retrieving full article content"
  | .otherError => "Error retrieving full article content"
  | .ok page =>
    match page.newsdetailContent with
    | none => "Content not found"
    | some texts =>
      let paragraphs := texts.filter (fun t => t ≠ "" && !boilerplate t)
      if paragraphs.isEmpty then "No readable content found"
      else joinParagraphs paragraphs

/-- The body of the per-row loop of `_scrape_sharesansar_news`: `none`
when the row is skipped, otherwise the appended record. -/
def sharesansarRowRecord
    (row : NewsTableRow (DriverFetch SharesansarArticlePage)) : Option Record :=
  if row.cells.length < 2 then none
  else
    let date := (row.cells.getD 0 ⟨"", none⟩).text
    match (row.cells.getD 1 ⟨"", none⟩).anchor with
    | none => none
    | some title_link =>
      match title_link.href with
      | none => none
      | some relative_url =>
        let full_url := urljoin sharesansar_base_url relative_url
        some [("title", JValue.str title_link.text),
              ("link", JValue.str full_url),
              ("date", JValue.str date),
              ("summary", JValue.null),
              ("full_content", JValue.str (scrapeFullArticleSharesansar row.articlePage)),
              ("categories", JValue.list []),
              ("image_url", JValue.null),
              ("source", JValue.str "Sharesansar")]

/-- `_scrape_sharesansar_news`: records scraped from the Sharesansar
news table for a symbol. -/
def scrapeSharesansarNews :
    DriverFetch (TableListing (DriverFetch SharesansarArticlePage)) → List Record
  | .timeout => []
  | .webDriverError => []
  | .otherError => []
  | .ok .tabMissing => []
  | .ok .tableTimeout => []
  | .ok .tableMissing => []
  | .ok .tbodyMissing => []
  | .ok (.rows rs) =>
    if rs.isEmpty then []
    else rs.filterMap sharesansarRowRecord

/-! ### Coordinator (`scrape_news`) and the per-symbol document store -/

/-- The per-symbol document that `scrape_news` serializes with
`json.dump`: the requested symbol as given, `datetime.now().isoformat()`,
and the accumulated records. -/
structure NewsDocument where
  symbol : String
  last_updated : String
  news : List Record
  deriving DecidableEq, Repr

/-- Outcome of `webdriver.Chrome(options=options)`: the shared browser
session starts, or raises `WebDriverException` or another exception
(both caught by the coordinator, which then skips all three
browser-driven sources). -/
inductive BrowserStart where
  | ok : BrowserStart
  | webDriverError : BrowserStart
  | otherError : BrowserStart
  deriving DecidableEq, Repr

/-- The external world one `scrape_news` run observes: the Investopaper
listing fetch, the browser-session start outcome, the three
browser-driven listing fetches, and the clock reading used for
`last_updated`. -/
structure ScrapeInputs where
  investopaper : HttpFetch InvestoListingPage
  browserStart : BrowserStart
  sharehub : DriverFetch ShareHubListingPage
  nepsealpha : DriverFetch (TableListing (DriverFetch NepseAlphaArticlePage))
  sharesansar : DriverFetch (TableListing (DriverFetch SharesansarArticlePage))
  now : String
  deriving Repr

/-- What one `scrape_news` run produces: the storage path it writes to,
the document it serializes there, and its return value. -/
structure ScrapeResult where
  filename : String
  doc : NewsDocument
  returned : List Record
  deriving DecidableEq, Repr

/-- `scrape_news`: runs the four extractors in order (Investopaper,
then — when the browser session starts — ShareHubNepal, NepseAlpha,
Sharesansar), extends the accumulator with each contribution, writes
`{'symbol': symbol, 'last_updated': now, 'news': all_news_for_symbol}`
to `data/<symbol lowercased>_news.json`, and returns the accumulated
list. All exceptions at this level (a browser-start failure included)
are caught, so the run always completes. -/
def scrape_news (symbol : String) (inp : ScrapeInputs) : ScrapeResult :=
  let investopaper_news := scrapeInvestopaperNews inp.investopaper
  let browser_news := match inp.browserStart with
    | .ok =>
      scrapeSharehubnepalNews inp.sharehub
        ++ scrapeNepsealphaNews inp.nepsealpha
        ++ scrapeSharesansarNews inp.sharesansar
    | .webDriverError => []
    | .otherError => []
  let all_news_for_symbol := investopaper_news ++ browser_news
  let filename := data_dir ++ "/" ++ pyLower symbol ++ "_news.json"
  { filename := filename
    doc := { symbol := symbol, last_updated := inp.now, news := all_news_for_symbol }
    returned := all_news_for_symbol }

/-- The store of per-symbol JSON documents: the files under `data/`,
keyed by path. -/
def Store : Type := String → Option NewsDocument

/-- `open(filename, 'w')` followed by `json.dump(...)`: the file is
truncated and rewritten, so the document at `filename` is replaced
outright. -/
def writeDocument (store : Store) (filename : String) (doc : NewsDocument) : Store :=
  fun f => if f = filename then some doc else store f

/-- A `json.load` of the document at `filename`, `none` when the file
does not exist. -/
def readDocument (store : Store) (filename : String) : Option NewsDocument :=
  store filename

/-- The store state after a `scrape_news` run. -/
def runScrape (store : Store) (symbol : String) (inp : ScrapeInputs) : Store :=
  let r := scrape_news symbol inp
  writeDocument store r.filename r.doc

/-- The file lookup of `analyze_news_for_symbol`
(`sentiment_analyzer.py`): the path it reads a symbol's news from. -/
def analyzeFilename (symbol : String) : String :=
  data_dir ++ "/" ++ pyLower symbol ++ "_news.json"

/-- The news list `analyze_news_for_symbol` iterates over: `data['news']`
of the symbol's document, or `[]` when no file exists. -/
def loadNews (store : Store) (symbol : String) : List Record :=
  match readDocument store (analyzeFilename symbol) with
  | none => []
  | some data => data.news

/-! ### Vocabulary for the verified properties -/

/-- The four failure sentinels named by the specification for
`full_content`. -/
def specSentinels : List String :=
  ["Content not found", "No readable content found",
   "Error retrieving full article content", "Timeout retrieving full article content"]

/-- The failure sentinels the code can actually return: the four of the
specification plus Investopaper's missing-container sentinel. -/
def codeSentinels : List String :=
  "Full article content not found" :: specSentinels

/-- The eight canonical field names of an article record, in the order
every extractor appends them. -/
def canonicalFields : List String :=
  ["title", "link", "date", "summary", "full_content", "categories", "image_url", "source"]

/-- A well-formed `full_content` value: non-empty, and either a failure
sentinel or a blank-line join of non-empty paragraphs. -/
def fullContentOk (s : String) : Prop :=
  s ≠ "" ∧ (s ∈ codeSentinels ∨
    ∃ ps : List String, ps ≠ [] ∧ (∀ p ∈ ps, p ≠ "") ∧ s = joinParagraphs ps)

/-! ### Concrete sample inputs used by witnesses and counterexamples -/

/-- A well-formed Investopaper listing item whose article page yields a
body paragraph. -/
def sampleInvestoItem : InvestoArticleItem :=
  { titleElement := some ⟨"Bank posts profit", some (some "https://www.investopaper.com/news/bank")⟩
    entryContentP := some (some "May 5, 2024 | Profit up")
    categories := []
    imageElement := none
    articlePage := .ok ⟨some ["Body paragraph."]⟩ }

/-- A well-formed ShareHubNepal listing card whose article page yields a
date and a body. -/
def sampleShareHubItem : ShareHubNewsItem :=
  { firstAnchorHref := some (some "/news/10")
    titleSpan := some ⟨"Hub headline", none⟩
    imageSrc := none
    articlePage := .ok ⟨some (some "2024-05-05"), some ["Hub body."]⟩ }

/-- A well-formed NepseAlpha news-table row whose article page yields a
date and a body. -/
def sampleNepseRow : NewsTableRow (DriverFetch NepseAlphaArticlePage) :=
  { cells := [⟨"2024-05-04", none⟩, ⟨"", some ⟨"Alpha headline", some "/news/11"⟩⟩]
    articlePage := .ok ⟨some "2024-05-05", some ["Alpha body."]⟩ }

/-- A well-formed Sharesansar news-table row whose article page yields a
body. -/
def sampleSansarRow : NewsTableRow (DriverFetch SharesansarArticlePage) :=
  { cells := [⟨"2024-05-03", none⟩, ⟨"", some ⟨"Sansar headline", some "/news/12"⟩⟩]
    articlePage := .ok ⟨some ["Sansar body."]⟩ }

/-- An Investopaper listing item whose own article page lacks the
`entry-content` container, so body extraction fails at the
missing-content-container stage. -/
def investoNoBodyItem : InvestoArticleItem :=
  { titleElement := some ⟨"Dividend news", some (some "https://www.investopaper.com/news/x")⟩
    entryContentP := some (some "May 5, 2024 | A short summary")
    categories := ["dividend"]
    imageElement := none
    articlePage := .ok ⟨none⟩ }

/-- A ShareHubNepal listing card with a link whose detail page yields a
body but no publish date. -/
def sharehubNoDateItem : ShareHubNewsItem :=
  { firstAnchorHref := some (some "/news/2")
    titleSpan := some ⟨"Quarterly report", none⟩
    imageSrc := none
    articlePage := .ok ⟨some none, some ["Report body."]⟩ }

/-- A ShareHubNepal listing card with a link but no title span. -/
def sharehubNoTitleItem : ShareHubNewsItem :=
  { firstAnchorHref := some (some "/news/1")
    titleSpan := none
    imageSrc := none
    articlePage := .ok ⟨some (some "2024-05-05"), some ["Body."]⟩ }

/-- A malformed Investopaper listing item: its title element has no
nested anchor, so no link can be extracted. -/
def investoNoLinkItem : InvestoArticleItem :=
  { titleElement := some ⟨"No link title", none⟩
    entryContentP := some none
    categories := []
    imageElement := none
    articlePage := .requestError }

/-- A malformed ShareHubNepal card: no anchor and no title span, so no
link can be extracted. -/
def sharehubNoLinkItem : ShareHubNewsItem :=
  { firstAnchorHref := none
    titleSpan := none
    imageSrc := none
    articlePage := .timeout }

/-- A malformed NepseAlpha table row: the title cell holds no anchor. -/
def nepseNoLinkRow : NewsTableRow (DriverFetch NepseAlphaArticlePage) :=
  { cells := [⟨"2024-05-04", none⟩, ⟨"", none⟩]
    articlePage := .timeout }

/-- A malformed Sharesansar table row: the title cell holds no anchor. -/
def sansarNoLinkRow : NewsTableRow (DriverFetch SharesansarArticlePage) :=
  { cells := [⟨"2024-05-03", none⟩, ⟨"", none⟩]
    articlePage := .timeout }

/-- A full set of run inputs in which the shared browser session fails
to start while every source's markup is well-formed. -/
def browserFailInputs : ScrapeInputs :=
  { investopaper := .ok ⟨some [sampleInvestoItem]⟩
    browserStart := .webDriverError
    sharehub := .ok ⟨some [sampleShareHubItem]⟩
    nepsealpha := .ok (.rows [sampleNepseRow])
    sharesansar := .ok (.rows [sampleSansarRow])
    now := "2026-10-12T00:00:00" }

/-- A full set of run inputs for a normal run: the browser starts and
every source yields one record. -/
def fullRunInputs : ScrapeInputs :=
  { investopaper := .ok ⟨some [sampleInvestoItem]⟩
    browserStart := .ok
    sharehub := .ok ⟨some [sampleShareHubItem]⟩
    nepsealpha := .ok (.rows [sampleNepseRow])
    sharesansar := .ok (.rows [sampleSansarRow])
    now := "2026-10-12T00:00:00" }

/-- The record `sampleInvestoItem` yields. -/
def sampleInvestoRecord : Record :=
  [("title", JValue.str "Bank posts profit"),
   ("link", JValue.str "https://www.investopaper.com/news/bank"),
   ("date", JValue.str "May 5, 2024"),
   ("summary", JValue.str "Profit up"),
   ("full_content", JValue.str "Body paragraph."),
   ("categories", JValue.list []),
   ("image_url", JValue.null),
   ("source", JValue.str "Investopaper")]

/-- The record `sampleShareHubItem` yields. -/
def sampleShareHubRecord : Record :=
  [("title", JValue.str "Hub headline"),
   ("link", JValue.str "https://sharehubnepal.com/news/10"),
   ("date", JValue.str "2024-05-05"),
   ("summary", JValue.null),
   ("full_content", JValue.str "Hub body."),
   ("categories", JValue.list []),
   ("image_url", JValue.null),
   ("source", JValue.str "ShareHubNepal")]

/-- The record `sampleNepseRow` yields. -/
def sampleNepseRecord : Record :=
  [("title", JValue.str "Alpha headline"),
   ("link", JValue.str "https://www.nepsealpha.com/news/11"),
   ("date", JValue.str "2024-05-05"),
   ("summary", JValue.null),
   ("full_content", JValue.str "Alpha body."),
   ("categories", JValue.list []),
   ("image_url", JValue.null),
   ("source", JValue.str "NepseAlpha")]

/-- The record `sampleSansarRow` yields. -/
def sampleSansarRecord : Record :=
  [("title", JValue.str "Sansar headline"),
   ("link", JValue.str "https://www.sharesansar.com/news/12"),
   ("date", JValue.str "2024-05-03"),
   ("summary", JValue.null),
   ("full_content", JValue.str "Sansar body."),
   ("categories", JValue.list []),
   ("image_url", JValue.null),
   ("source", JValue.str "Sharesansar")]

/-- The record `investoNoBodyItem` yields: its `full_content` is a fifth
sentinel string. -/
def investoNoBodyRecord : Record :=
  [("title", JValue.str "Dividend news"),
   ("link", JValue.str "https://www.investopaper.com/news/x"),
   ("date", JValue.str "May 5, 2024"),
   ("summary", JValue.str "A short summary"),
   ("full_content", JValue.str "Full article content not found"),
   ("categories", JValue.list ["dividend"]),
   ("image_url", JValue.null),
   ("source", JValue.str "Investopaper")]

/-- The record `sharehubNoDateItem` yields: its `date` is null. -/
def sharehubNoDateRecord : Record :=
  [("title", JValue.str "Quarterly report"),
   ("link", JValue.str "https://sharehubnepal.com/news/2"),
   ("date", JValue.null),
   ("summary", JValue.null),
   ("full_content", JValue.str "Report body."),
   ("categories", JValue.list []),
   ("image_url", JValue.null),
   ("source", JValue.str "ShareHubNepal")]

/-- The record `sharehubNoTitleItem` yields: its `title` is the empty
string. -/
def sharehubNoTitleRecord : Record :=
  [("title", JValue.str ""),
   ("link", JValue.str "https://sharehubnepal.com/news/1"),
   ("date", JValue.str "2024-05-05"),
   ("summary", JValue.null),
   ("full_content", JValue.str "Body."),
   ("categories", JValue.list []),
   ("image_url", JValue.null),
   ("source", JValue.str "ShareHubNepal")]

/-- A NepseAlpha row whose article page yields a body but no date: the
record's date must come from the listing cell. -/
def nepseListDateRow : NewsTableRow (DriverFetch NepseAlphaArticlePage) :=
  { cells := [⟨"2024-05-04", none⟩, ⟨"", some ⟨"Alpha headline", some "/news/11"⟩⟩]
    articlePage := .ok ⟨none, some ["Alpha body."]⟩ }

/-- A NepseAlpha row whose article page yields an empty-string date: the
falsy page date also falls back to the listing cell. -/
def nepseEmptyDateRow : NewsTableRow (DriverFetch NepseAlphaArticlePage) :=
  { cells := [⟨"2024-05-04", none⟩, ⟨"", some ⟨"Alpha headline", some "/news/11"⟩⟩]
    articlePage := .ok ⟨some "", some ["Alpha body."]⟩ }

/-- The record `nepseListDateRow` and `nepseEmptyDateRow` both yield:
the date is the listing cell's. -/
def nepseListDateRecord : Record :=
  [("title", JValue.str "Alpha headline"),
   ("link", JValue.str "https://www.nepsealpha.com/news/11"),
   ("date", JValue.str "2024-05-04"),
   ("summary", JValue.null),
   ("full_content", JValue.str "Alpha body."),
   ("categories", JValue.list []),
   ("image_url", JValue.null),
   ("source", JValue.str "NepseAlpha")]

/-! ## Helper lemmas -/

theorem append_ne_empty_left (a b : String) (h : a ≠ "") : a ++ b ≠ "" := by
  intro hab
  apply h
  have hd : a.data ++ b.data = ([] : List Char) := by
    have hdata := congrArg String.data hab
    simpa using hdata
  exact String.ext (List.append_eq_nil.mp hd).1

theorem joinParagraphs_ne_empty :
    ∀ ps : List String, ps ≠ [] → (∀ p ∈ ps, p ≠ "") → joinParagraphs ps ≠ ""
  | [], hne, _ => absurd rfl hne
  | [p], _, h => by simpa [joinParagraphs] using h p (by simp)
  | p :: q :: ps, _, h => by
    show p ++ "\n\n" ++ joinParagraphs (q :: ps) ≠ ""
    exact append_ne_empty_left _ _ (append_ne_empty_left _ _ (h p (by simp)))

theorem mem_filter_ne_empty {l : List String} {p : String}
    (h : p ∈ l.filter (fun t => t ≠ "" && !boilerplate t)) : p ≠ "" := by
  have := (List.mem_filter.mp h).2
  simp only [Bool.and_eq_true, decide_eq_true_eq] at this
  exact this.1

theorem mem_filter_ne_empty' {l : List String} {p : String}
    (h : p ∈ l.filter (fun t => t ≠ "")) : p ≠ "" := by
  have := (List.mem_filter.mp h).2
  simpa using this

theorem fullContentOk_joined {l : List String}
    (hne : (l.filter (fun t => t ≠ "" && !boilerplate t)).isEmpty = false) :
    fullContentOk (joinParagraphs (l.filter (fun t => t ≠ "" && !boilerplate t))) := by
  have hnil : l.filter (fun t => t ≠ "" && !boilerplate t) ≠ [] := by
    simpa [List.isEmpty_iff] using hne
  have hall : ∀ p ∈ l.filter (fun t => t ≠ "" && !boilerplate t), p ≠ "" :=
    fun p hp => mem_filter_ne_empty hp
  exact ⟨joinParagraphs_ne_empty _ hnil hall, Or.inr ⟨_, hnil, hall, rfl⟩⟩

theorem fullContentOk_investopaper (f : HttpFetch InvestoArticlePage) :
    fullContentOk (scrapeFullArticleInvestopaper f) := by
  cases f with
  | requestError => exact ⟨by decide, Or.inl (by decide)⟩
  | otherError => exact ⟨by decide, Or.inl (by decide)⟩
  | ok page =>
    cases hc : page.entryContent with
    | none =>
      simp only [scrapeFullArticleInvestopaper, hc]
      exact ⟨by decide, Or.inl (by decide)⟩
    | some texts =>
      simp only [scrapeFullArticleInvestopaper, hc]
      cases he : (texts.filter (fun t => t ≠ "" && !boilerplate t)).isEmpty with
      | true =>
        simp only [he, if_true]
        exact ⟨by decide, Or.inl (by decide)⟩
      | false =>
        simp only [Bool.false_eq_true, if_false]
        exact fullContentOk_joined he

theorem fullContentOk_sharehubnepal (f : DriverFetch ShareHubArticlePage) :
    fullContentOk (scrapeFullArticleSharehubnepal f).1 := by
  cases f with
  | timeout => exact ⟨by decide, Or.inl (by decide)⟩
  | webDriverError => exact ⟨by decide, Or.inl (by decide)⟩
  | otherError => exact ⟨by decide, Or.inl (by decide)⟩
  | ok page =>
    cases hc : page.postContent with
    | none =>
      simp only [scrapeFullArticleSharehubnepal, hc]
      exact ⟨by decide, Or.inl (by decide)⟩
    | some texts =>
      simp only [scrapeFullArticleSharehubnepal, hc]
      cases he : (texts.filter (fun t => t ≠ "")).isEmpty with
      | true =>
        simp only [he, if_true]
        exact ⟨by decide, Or.inl (by decide)⟩
      | false =>
        simp only [Bool.false_eq_true, if_false]
        have hnil : texts.filter (fun t => t ≠ "") ≠ [] := by
          simpa [List.isEmpty_iff] using he
        have hall : ∀ p ∈ texts.filter (fun t => t ≠ ""), p ≠ "" :=
          fun p hp => mem_filter_ne_empty' hp
        exact ⟨joinParagraphs_ne_empty _ hnil hall, Or.inr ⟨_, hnil, hall, rfl⟩⟩

theorem fullContentOk_nepsealpha (f : DriverFetch NepseAlphaArticlePage) :
    fullContentOk (scrapeFullArticleNepsealpha f).1 := by
  cases f with
  | timeout => exact ⟨by decide, Or.inl (by decide)⟩
  | webDriverError => exact ⟨by decide, Or.inl (by decide)⟩
  | otherError => exact ⟨by decide, Or.inl (by decide)⟩
  | ok page =>
    cases hc : page.postDescriptions with
    | none =>
      simp only [scrapeFullArticleNepsealpha, hc]
      exact ⟨by decide, Or.inl (by decide)⟩
    | some texts =>
      simp only [scrapeFullArticleNepsealpha, hc]
      cases he : (texts.filter (fun t => t ≠ "" && !boilerplate t)).isEmpty with
      | true =>
        simp only [he, if_true]
        exact ⟨by decide, Or.inl (by decide)⟩
      | false =>
        simp only [Bool.false_eq_true, if_false]
        exact fullContentOk_joined he

theorem fullContentOk_sharesansar (f : DriverFetch SharesansarArticlePage) :
    fullContentOk (scrapeFullArticleSharesansar f) := by
  cases f with
  | timeout => exact ⟨by decide, Or.inl (by decide)⟩
  | webDriverError => exact ⟨by decide, Or.inl (by decide)⟩
  | otherError => exact ⟨by decide, Or.inl (by decide)⟩
  | ok page =>
    cases hc : page.newsdetailContent with
    | none =>
      simp only [scrapeFullArticleSharesansar, hc]
      exact ⟨by decide, Or.inl (by decide)⟩
    | some texts =>
      simp only [scrapeFullArticleSharesansar, hc]
      cases he : (texts.filter (fun t => t ≠ "" && !boilerplate t)).isEmpty with
      | true =>
        simp only [he, if_true]
        exact ⟨by decide, Or.inl (by decide)⟩
      | false =>
        simp only [Bool.false_eq_true, if_false]
        exact fullContentOk_joined he

theorem investoItemRecord_shape (item : InvestoArticleItem) (rec : Record)
    (h : investoItemRecord item = some rec) :
    ∃ te link date_text summary image_url, item.titleElement = some te ∧
      rec = [("title", JValue.str te.text), ("link", JValue.str link),
             ("date", JValue.str date_text), ("summary", JValue.str summary),
             ("full_content", JValue.str (scrapeFullArticleInvestopaper item.articlePage)),
             ("categories", JValue.list item.categories),
             ("image_url", image_url),
             ("source", JValue.str "Investopaper")] := by
  cases hte : item.titleElement with
  | none => simp [investoItemRecord, investoLink, hte] at h
  | some te =>
    cases ha : te.anchor with
    | none => simp [investoItemRecord, investoLink, hte, ha] at h
    | some oh =>
      cases oh with
      | none => simp [investoItemRecord, investoLink, hte, ha] at h
      | some href =>
        by_cases hh : href = "#"
        · simp [investoItemRecord, investoLink, hte, ha, hh] at h
        · cases hec : item.entryContentP with
          | none => simp [investoItemRecord, investoLink, hte, ha, hh, hec] at h
          | some dateP =>
            simp only [investoItemRecord, investoLink, hte, ha, hh, hec,
              if_false, ite_false, Option.some.injEq] at h
            exact ⟨te, href, _, _, _, rfl, h.symm⟩

theorem sharehubItemRecord_shape (item : ShareHubNewsItem) (rec : Record)
    (h : sharehubItemRecord item = some rec) :
    ∃ link image_url,
      rec = [("title", JValue.str (match item.titleSpan with
               | some sp => sp.text
               | none => "")),
             ("link", JValue.str link),
             ("date", JValue.ofOption (scrapeFullArticleSharehubnepal item.articlePage).2),
             ("summary", JValue.null),
             ("full_content", JValue.str (scrapeFullArticleSharehubnepal item.articlePage).1),
             ("categories", JValue.list []),
             ("image_url", image_url),
             ("source", JValue.str "ShareHubNepal")] := by
  cases hl : sharehubItemLink item with
  | none => simp [sharehubItemRecord, hl] at h
  | some rel =>
    simp only [sharehubItemRecord, hl, Option.some.injEq] at h
    exact ⟨_, _, h.symm⟩

theorem nepsealphaRowRecord_shape (row : NewsTableRow (DriverFetch NepseAlphaArticlePage))
    (rec : Record) (h : nepsealphaRowRecord row = some rec) :
    ∃ title_link link,
      (row.cells.getD 1 ⟨"", none⟩).anchor = some title_link ∧
      rec = [("title", JValue.str title_link.text),
             ("link", JValue.str link),
             ("date", JValue.str (match (scrapeFullArticleNepsealpha row.articlePage).2 with
               | some d => if d = "" then (row.cells.getD 0 ⟨"", none⟩).text else d
               | none => (row.cells.getD 0 ⟨"", none⟩).text)),
             ("summary", JValue.null),
             ("full_content", JValue.str (scrapeFullArticleNepsealpha row.articlePage).1),
             ("categories", JValue.list []),
             ("image_url", JValue.null),
             ("source", JValue.str "NepseAlpha")] := by
  by_cases hn : row.cells.length < 2
  · simp [nepsealphaRowRecord, hn] at h
  · simp only [nepsealphaRowRecord, if_neg hn] at h
    split at h
    next => simp at h
    next title_link hanch =>
      split at h
      next => simp at h
      next href hhref =>
        simp only [Option.some.injEq] at h
        refine ⟨title_link, _, ?_, h.symm⟩
        simpa [List.getD] using hanch

theorem sharesansarRowRecord_shape (row : NewsTableRow (DriverFetch SharesansarArticlePage))
    (rec : Record) (h : sharesansarRowRecord row = some rec) :
    ∃ title_link link,
      (row.cells.getD 1 ⟨"", none⟩).anchor = some title_link ∧
      rec = [("title", JValue.str title_link.text),
             ("link", JValue.str link),
             ("date", JValue.str ((row.cells.getD 0 ⟨"", none⟩).text)),
             ("summary", JValue.null),
             ("full_content", JValue.str (scrapeFullArticleSharesansar row.articlePage)),
             ("categories", JValue.list []),
             ("image_url", JValue.null),
             ("source", JValue.str "Sharesansar")] := by
  by_cases hn : row.cells.length < 2
  · simp [sharesansarRowRecord, hn] at h
  · simp only [sharesansarRowRecord, if_neg hn] at h
    split at h
    next => simp at h
    next title_link hanch =>
      split at h
      next => simp at h
      next href hhref =>
        simp only [Option.some.injEq] at h
        refine ⟨title_link, _, ?_, h.symm⟩
        simpa [List.getD] using hanch

theorem mem_scrapeInvestopaperNews {f : HttpFetch InvestoListingPage} {rec : Record}
    (h : rec ∈ scrapeInvestopaperNews f) :
    ∃ item, investoItemRecord item = some rec := by
  cases f with
  | requestError => simp [scrapeInvestopaperNews] at h
  | otherError => simp [scrapeInvestopaperNews] at h
  | ok page =>
    cases hc : page.articleContainer with
    | none => simp [scrapeInvestopaperNews, hc] at h
    | some items =>
      simp only [scrapeInvestopaperNews, hc, List.mem_filterMap] at h
      obtain ⟨item, _, hi⟩ := h
      exact ⟨item, hi⟩

theorem mem_scrapeSharehubnepalNews {f : DriverFetch ShareHubListingPage} {rec : Record}
    (h : rec ∈ scrapeSharehubnepalNews f) :
    ∃ item, sharehubItemRecord item = some rec := by
  cases f with
  | timeout => simp [scrapeSharehubnepalNews] at h
  | webDriverError => simp [scrapeSharehubnepalNews] at h
  | otherError => simp [scrapeSharehubnepalNews] at h
  | ok page =>
    cases hc : page.newsContainer with
    | none => simp [scrapeSharehubnepalNews, hc] at h
    | some items =>
      cases he : items.isEmpty with
      | true => simp [scrapeSharehubnepalNews, hc, he] at h
      | false =>
        simp only [scrapeSharehubnepalNews, hc, he, Bool.false_eq_true, if_false,
          List.mem_filterMap] at h
        obtain ⟨item, _, hi⟩ := h
        exact ⟨item, hi⟩

theorem mem_scrapeNepsealphaNews
    {f : DriverFetch (TableListing (DriverFetch NepseAlphaArticlePage))} {rec : Record}
    (h : rec ∈ scrapeNepsealphaNews f) :
    ∃ row, nepsealphaRowRecord row = some rec := by
  cases f with
  | timeout => simp [scrapeNepsealphaNews] at h
  | webDriverError => simp [scrapeNepsealphaNews] at h
  | otherError => simp [scrapeNepsealphaNews] at h
  | ok listing =>
    cases listing with
    | tabMissing => simp [scrapeNepsealphaNews] at h
    | tableTimeout => simp [scrapeNepsealphaNews] at h
    | tableMissing => simp [scrapeNepsealphaNews] at h
    | tbodyMissing => simp [scrapeNepsealphaNews] at h
    | rows rs =>
      cases he : rs.isEmpty with
      | true => simp [scrapeNepsealphaNews, he] at h
      | false =>
        simp only [scrapeNepsealphaNews, he, Bool.false_eq_true, if_false,
          List.mem_filterMap] at h
        obtain ⟨row, _, hi⟩ := h
        exact ⟨row, hi⟩

theorem mem_scrapeSharesansarNews
    {f : DriverFetch (TableListing (DriverFetch SharesansarArticlePage))} {rec : Record}
    (h : rec ∈ scrapeSharesansarNews f) :
    ∃ row, sharesansarRowRecord row = some rec := by
  cases f with
  | timeout => simp [scrapeSharesansarNews] at h
  | webDriverError => simp [scrapeSharesansarNews] at h
  | otherError => simp [scrapeSharesansarNews] at h
  | ok listing =>
    cases listing with
    | tabMissing => simp [scrapeSharesansarNews] at h
    | tableTimeout => simp [scrapeSharesansarNews] at h
    | tableMissing => simp [scrapeSharesansarNews] at h
    | tbodyMissing => simp [scrapeSharesansarNews] at h
    | rows rs =>
      cases he : rs.isEmpty with
      | true => simp [scrapeSharesansarNews, he] at h
      | false =>
        simp only [scrapeSharesansarNews, he, Bool.false_eq_true, if_false,
          List.mem_filterMap] at h
        obtain ⟨row, _, hi⟩ := h
        exact ⟨row, hi⟩

/-! ## Claim theorems -/

/-- C1, counterexample: the claim's list of exactly four sentinel
strings is wrong. When an Investopaper article page lacks its
`entry-content` container, the produced record's `full_content` is the
sentinel `"Full article content not found"`, which is none of the four
strings the claim allows. -/
theorem investopaper_fifth_sentinel :
    investoNoBodyRecord ∈ scrapeInvestopaperNews (.ok ⟨some [investoNoBodyItem]⟩)
  ∧ ("full_content", JValue.str "Full article content not found") ∈ investoNoBodyRecord
  ∧ "Full article content not found" ∉ specSentinels := by decide

/-- C1 (amended): every article record produced by any of the four
extractors carries a `full_content` string that is non-empty and, on
any extraction failure, equals one of the five sentinel strings the
code returns (the specification's four plus Investopaper's
`"Full article content not found"`); otherwise it is a blank-line join
of non-empty paragraphs. -/
theorem fullContent_nonempty_sentinel :
    (∀ f, ∀ rec ∈ scrapeInvestopaperNews f,
      ∃ s, ("full_content", JValue.str s) ∈ rec ∧ fullContentOk s)
  ∧ (∀ f, ∀ rec ∈ scrapeSharehubnepalNews f,
      ∃ s, ("full_content", JValue.str s) ∈ rec ∧ fullContentOk s)
  ∧ (∀ f, ∀ rec ∈ scrapeNepsealphaNews f,
      ∃ s, ("full_content", JValue.str s) ∈ rec ∧ fullContentOk s)
  ∧ (∀ f, ∀ rec ∈ scrapeSharesansarNews f,
      ∃ s, ("full_content", JValue.str s) ∈ rec ∧ fullContentOk s) := by
  refine ⟨?_, ?_, ?_, ?_⟩
  · intro f rec hrec
    obtain ⟨item, hi⟩ := mem_scrapeInvestopaperNews hrec
    obtain ⟨te, link, d, su, im, hte, hrec'⟩ := investoItemRecord_shape item rec hi
    exact ⟨_, by simp [hrec'], fullContentOk_investopaper item.articlePage⟩
  · intro f rec hrec
    obtain ⟨item, hi⟩ := mem_scrapeSharehubnepalNews hrec
    obtain ⟨link, im, hrec'⟩ := sharehubItemRecord_shape item rec hi
    exact ⟨_, by simp [hrec'], fullContentOk_sharehubnepal item.articlePage⟩
  · intro f rec hrec
    obtain ⟨row, hi⟩ := mem_scrapeNepsealphaNews hrec
    obtain ⟨tl, link, hanch, hrec'⟩ := nepsealphaRowRecord_shape row rec hi
    exact ⟨_, by simp [hrec'], fullContentOk_nepsealpha row.articlePage⟩
  · intro f rec hrec
    obtain ⟨row, hi⟩ := mem_scrapeSharesansarNews hrec
    obtain ⟨tl, link, hanch, hrec'⟩ := sharesansarRowRecord_shape row rec hi
    exact ⟨_, by simp [hrec'], fullContentOk_sharesansar row.articlePage⟩

/-- Witness for C1's amended theorem: it is applied to one concrete
record of each of the four extractors. -/
theorem fullContent_nonempty_sentinel_witness :
    (∃ s, ("full_content", JValue.str s) ∈ sampleInvestoRecord ∧ fullContentOk s)
  ∧ (∃ s, ("full_content", JValue.str s) ∈ sampleShareHubRecord ∧ fullContentOk s)
  ∧ (∃ s, ("full_content", JValue.str s) ∈ sampleNepseRecord ∧ fullContentOk s)
  ∧ (∃ s, ("full_content", JValue.str s) ∈ sampleSansarRecord ∧ fullContentOk s) :=
  ⟨fullContent_nonempty_sentinel.1 (.ok ⟨some [sampleInvestoItem]⟩)
      sampleInvestoRecord (by decide),
   fullContent_nonempty_sentinel.2.1 (.ok ⟨some [sampleShareHubItem]⟩)
      sampleShareHubRecord (by decide),
   fullContent_nonempty_sentinel.2.2.1 (.ok (.rows [sampleNepseRow]))
      sampleNepseRecord (by decide),
   fullContent_nonempty_sentinel.2.2.2 (.ok (.rows [sampleSansarRow]))
      sampleSansarRecord (by decide)⟩

/-- C2: every record appended by any of the four extractors has exactly
the eight canonical fields, in the same order, whatever the fetched
markup was. -/
theorem record_fields_uniform :
    (∀ f, ∀ rec ∈ scrapeInvestopaperNews f, rec.map Prod.fst = canonicalFields)
  ∧ (∀ f, ∀ rec ∈ scrapeSharehubnepalNews f, rec.map Prod.fst = canonicalFields)
  ∧ (∀ f, ∀ rec ∈ scrapeNepsealphaNews f, rec.map Prod.fst = canonicalFields)
  ∧ (∀ f, ∀ rec ∈ scrapeSharesansarNews f, rec.map Prod.fst = canonicalFields) := by
  refine ⟨?_, ?_, ?_, ?_⟩
  · intro f rec hrec
    obtain ⟨item, hi⟩ := mem_scrapeInvestopaperNews hrec
    obtain ⟨te, link, d, su, im, hte, hrec'⟩ := investoItemRecord_shape item rec hi
    simp [hrec', canonicalFields]
  · intro f rec hrec
    obtain ⟨item, hi⟩ := mem_scrapeSharehubnepalNews hrec
    obtain ⟨link, im, hrec'⟩ := sharehubItemRecord_shape item rec hi
    simp [hrec', canonicalFields]
  · intro f rec hrec
    obtain ⟨row, hi⟩ := mem_scrapeNepsealphaNews hrec
    obtain ⟨tl, link, hanch, hrec'⟩ := nepsealphaRowRecord_shape row rec hi
    simp [hrec', canonicalFields]
  · intro f rec hrec
    obtain ⟨row, hi⟩ := mem_scrapeSharesansarNews hrec
    obtain ⟨tl, link, hanch, hrec'⟩ := sharesansarRowRecord_shape row rec hi
    simp [hrec', canonicalFields]

/-- Witness for C2's theorem: it is applied to one concrete record of
each of the four extractors. -/
theorem record_fields_uniform_witness :
    sampleInvestoRecord.map Prod.fst = canonicalFields
  ∧ sampleShareHubRecord.map Prod.fst = canonicalFields
  ∧ sampleNepseRecord.map Prod.fst = canonicalFields
  ∧ sampleSansarRecord.map Prod.fst = canonicalFields :=
  ⟨record_fields_uniform.1 (.ok ⟨some [sampleInvestoItem]⟩)
      sampleInvestoRecord (by decide),
   record_fields_uniform.2.1 (.ok ⟨some [sampleShareHubItem]⟩)
      sampleShareHubRecord (by decide),
   record_fields_uniform.2.2.1 (.ok (.rows [sampleNepseRow]))
      sampleNepseRecord (by decide),
   record_fields_uniform.2.2.2 (.ok (.rows [sampleSansarRow]))
      sampleSansarRecord (by decide)⟩

/-- C3: for each of the four extractors, a listing page whose expected
container or table is absent from the fetched markup yields the empty
record list (and, the extractors being total functions, no exception
escapes them). -/
theorem extractors_empty_on_missing_container :
    scrapeInvestopaperNews (.ok ⟨none⟩) = []
  ∧ scrapeSharehubnepalNews (.ok ⟨none⟩) = []
  ∧ scrapeNepsealphaNews (.ok .tableMissing) = []
  ∧ scrapeSharesansarNews (.ok .tableMissing) = [] :=
  ⟨rfl, rfl, rfl, rfl⟩

/-- C4: the document written at the end of a `scrape_news` run fully
replaces any prior document stored for that symbol: whatever the store
previously held, reading the symbol's path afterwards returns exactly
this run's document (its symbol, `last_updated` and `news` fields), and
the list `analyze_news_for_symbol` then loads is exactly this run's
list — never a merge with prior content. -/
theorem document_write_replaces (store : Store) (symbol : String) (inp : ScrapeInputs) :
    readDocument (runScrape store symbol inp) (scrape_news symbol inp).filename
      = some { symbol := symbol, last_updated := inp.now,
               news := (scrape_news symbol inp).returned }
  ∧ loadNews (runScrape store symbol inp) symbol = (scrape_news symbol inp).returned := by
  refine ⟨?_, ?_⟩ <;>
    simp [runScrape, writeDocument, readDocument, loadNews, analyzeFilename, scrape_news]

/-- C5, counterexample: a failure to start the shared browser session
neither aborts the run nor is surfaced to the caller as a fatal
condition — the coordinator catches it (`news_scraper.py` lines
714-718). With the browser start failing and every source's markup
well-formed, `scrape_news` completes normally: it writes a full
document, carrying only the Investopaper contribution, and returns the
list. -/
theorem browser_start_failure_run_completes :
    browserFailInputs.browserStart ≠ BrowserStart.ok
  ∧ scrape_news "NABIL" browserFailInputs =
      { filename := "data/nabil_news.json"
        doc := { symbol := "NABIL", last_updated := "2026-10-12T00:00:00",
                 news := [sampleInvestoRecord] }
        returned := [sampleInvestoRecord] } :=
  ⟨by decide, by decide⟩

/-- C5 (amended): no failure aborts a symbol run. Even a catastrophic
failure to start the shared browser session is caught by the
coordinator; the run then completes with empty contributions from the
three browser-driven sources, the document still being written with the
Investopaper contribution alone. -/
theorem run_never_aborted (symbol : String) (inp : ScrapeInputs)
    (h : inp.browserStart ≠ BrowserStart.ok) :
    (scrape_news symbol inp).doc.news = scrapeInvestopaperNews inp.investopaper
  ∧ (scrape_news symbol inp).returned = scrapeInvestopaperNews inp.investopaper := by
  cases hb : inp.browserStart with
  | ok => exact absurd hb h
  | webDriverError => constructor <;> simp [scrape_news, hb]
  | otherError => constructor <;> simp [scrape_news, hb]

/-- Witness for C5's amended theorem, at the concrete failed-browser
run. -/
theorem run_never_aborted_witness :
    (scrape_news "NABIL" browserFailInputs).doc.news
        = scrapeInvestopaperNews browserFailInputs.investopaper
  ∧ (scrape_news "NABIL" browserFailInputs).returned
        = scrapeInvestopaperNews browserFailInputs.investopaper :=
  run_never_aborted "NABIL" browserFailInputs (by decide)

/-- C6: `scrape_news` writes to `data/<symbol lowercased>_news.json`,
stores the requested symbol verbatim (case preserved) in the document's
`symbol` field, and lists the records in source-iteration order: all
Investopaper records, then ShareHubNepal's, then NepseAlpha's, then
Sharesansar's. -/
theorem scrape_news_output_shape (symbol : String) (inp : ScrapeInputs)
    (h : inp.browserStart = BrowserStart.ok) :
    (scrape_news symbol inp).filename = data_dir ++ "/" ++ pyLower symbol ++ "_news.json"
  ∧ (scrape_news symbol inp).doc.symbol = symbol
  ∧ (scrape_news symbol inp).doc.news =
      scrapeInvestopaperNews inp.investopaper
        ++ scrapeSharehubnepalNews inp.sharehub
        ++ scrapeNepsealphaNews inp.nepsealpha
        ++ scrapeSharesansarNews inp.sharesansar := by
  refine ⟨rfl, rfl, ?_⟩
  simp [scrape_news, h, List.append_assoc]

/-- Witness for C6's theorem at the requested symbol `"NABIL"` on a
normal run: the file path is `data/nabil_news.json` and the `symbol`
field stays `"NABIL"`. -/
theorem scrape_news_output_shape_witness :
    (scrape_news "NABIL" fullRunInputs).filename = "data/nabil_news.json"
  ∧ (scrape_news "NABIL" fullRunInputs).doc.symbol = "NABIL"
  ∧ (scrape_news "NABIL" fullRunInputs).doc.news =
      scrapeInvestopaperNews fullRunInputs.investopaper
        ++ scrapeSharehubnepalNews fullRunInputs.sharehub
        ++ scrapeNepsealphaNews fullRunInputs.nepsealpha
        ++ scrapeSharesansarNews fullRunInputs.sharesansar := by
  have h := scrape_news_output_shape "NABIL" fullRunInputs rfl
  refine ⟨?_, h.2.1, h.2.2⟩
  rw [h.1]
  decide

/-- C7, counterexample: ShareHubNepal has no fallback to a listing
date. For a card whose detail page yields a body but no publish date,
the produced record's `date` field is null — not a coarser date from
the listing, which the extractor never reads. -/
theorem sharehub_null_date :
    scrapeSharehubnepalNews (.ok ⟨some [sharehubNoDateItem]⟩) = [sharehubNoDateRecord]
  ∧ ("date", JValue.null) ∈ sharehubNoDateRecord := by decide

/-- C7 (amended): both browser-driven sources record the date extracted
from the article's own page when one is found. When the detail page
yields none (or an empty string), NepseAlpha falls back to the listing
table's date cell, while ShareHubNepal stores exactly the detail page's
date — null when there is none. -/
theorem date_fallback_behavior :
    (∀ row rec d, nepsealphaRowRecord row = some rec →
       (scrapeFullArticleNepsealpha row.articlePage).2 = some d → d ≠ "" →
       ("date", JValue.str d) ∈ rec)
  ∧ (∀ row rec, nepsealphaRowRecord row = some rec →
       (scrapeFullArticleNepsealpha row.articlePage).2 = none →
       ("date", JValue.str ((row.cells.getD 0 ⟨"", none⟩).text)) ∈ rec)
  ∧ (∀ row rec, nepsealphaRowRecord row = some rec →
       (scrapeFullArticleNepsealpha row.articlePage).2 = some "" →
       ("date", JValue.str ((row.cells.getD 0 ⟨"", none⟩).text)) ∈ rec)
  ∧ (∀ item rec, sharehubItemRecord item = some rec →
       ("date", JValue.ofOption (scrapeFullArticleSharehubnepal item.articlePage).2) ∈ rec) := by
  refine ⟨?_, ?_, ?_, ?_⟩
  · intro row rec d hrec hd hne
    obtain ⟨tl, link, hanch, hrec'⟩ := nepsealphaRowRecord_shape row rec hrec
    rw [hrec']
    simp [hd, hne]
  · intro row rec hrec hd
    obtain ⟨tl, link, hanch, hrec'⟩ := nepsealphaRowRecord_shape row rec hrec
    rw [hrec']
    simp [hd]
  · intro row rec hrec hd
    obtain ⟨tl, link, hanch, hrec'⟩ := nepsealphaRowRecord_shape row rec hrec
    rw [hrec']
    simp [hd]
  · intro item rec hrec
    obtain ⟨link, im, hrec'⟩ := sharehubItemRecord_shape item rec hrec
    rw [hrec']
    simp

/-- Witness for C7's amended theorem: the three NepseAlpha date cases
and the ShareHubNepal case, each at a concrete row or card. -/
theorem date_fallback_behavior_witness :
    ("date", JValue.str "2024-05-05") ∈ sampleNepseRecord
  ∧ ("date", JValue.str "2024-05-04") ∈ nepseListDateRecord
  ∧ ("date", JValue.str "2024-05-04") ∈ nepseListDateRecord
  ∧ ("date", JValue.ofOption
        (scrapeFullArticleSharehubnepal sampleShareHubItem.articlePage).2)
      ∈ sampleShareHubRecord :=
  ⟨date_fallback_behavior.1 sampleNepseRow sampleNepseRecord "2024-05-05"
      (by decide) (by decide) (by decide),
   date_fallback_behavior.2.1 nepseListDateRow nepseListDateRecord (by decide) (by decide),
   date_fallback_behavior.2.2.1 nepseEmptyDateRow nepseListDateRecord (by decide) (by decide),
   date_fallback_behavior.2.2.2 sampleShareHubItem sampleShareHubRecord (by decide)⟩

theorem filterMap_middle_none {α β : Type} (f : α → Option β) (xs ys : List α) (bad : α)
    (h : f bad = none) :
    (xs ++ bad :: ys).filterMap f = (xs ++ ys).filterMap f := by
  simp [List.filterMap_append, List.filterMap_cons, h]

theorem filterMap_length_all_some {α β : Type} (f : α → Option β) :
    ∀ l : List α, (∀ x ∈ l, (f x).isSome) → (l.filterMap f).length = l.length
  | [], _ => rfl
  | x :: xs, h => by
    cases hx : f x with
    | none => exact absurd (h x (by simp)) (by simp [hx])
    | some b =>
      simp only [List.filterMap_cons, hx, List.length_cons]
      rw [filterMap_length_all_some f xs (fun y hy => h y (by simp [hy]))]

theorem ifEmptyFilterMap {α β : Type} (f : α → Option β) (l : List α) :
    (if l.isEmpty then [] else l.filterMap f) = l.filterMap f := by
  cases l <;> simp

/-- C8: in each of the four extractors a malformed listing item — one
from which no link can be extracted — is skipped without disturbing the
rest of the batch: inserting it anywhere in the listing leaves the
output unchanged, and a listing of N well-formed items yields exactly N
records. -/
theorem malformed_item_skipped :
    (∀ xs ys bad, investoItemRecord bad = none →
      scrapeInvestopaperNews (.ok ⟨some (xs ++ bad :: ys)⟩)
        = scrapeInvestopaperNews (.ok ⟨some (xs ++ ys)⟩))
  ∧ (∀ items, (∀ x ∈ items, (investoItemRecord x).isSome) →
      (scrapeInvestopaperNews (.ok ⟨some items⟩)).length = items.length)
  ∧ (∀ xs ys bad, sharehubItemRecord bad = none →
      scrapeSharehubnepalNews (.ok ⟨some (xs ++ bad :: ys)⟩)
        = scrapeSharehubnepalNews (.ok ⟨some (xs ++ ys)⟩))
  ∧ (∀ items, (∀ x ∈ items, (sharehubItemRecord x).isSome) →
      (scrapeSharehubnepalNews (.ok ⟨some items⟩)).length = items.length)
  ∧ (∀ xs ys bad, nepsealphaRowRecord bad = none →
      scrapeNepsealphaNews (.ok (.rows (xs ++ bad :: ys)))
        = scrapeNepsealphaNews (.ok (.rows (xs ++ ys))))
  ∧ (∀ rows, (∀ x ∈ rows, (nepsealphaRowRecord x).isSome) →
      (scrapeNepsealphaNews (.ok (.rows rows))).length = rows.length)
  ∧ (∀ xs ys bad, sharesansarRowRecord bad = none →
      scrapeSharesansarNews (.ok (.rows (xs ++ bad :: ys)))
        = scrapeSharesansarNews (.ok (.rows (xs ++ ys))))
  ∧ (∀ rows, (∀ x ∈ rows, (sharesansarRowRecord x).isSome) →
      (scrapeSharesansarNews (.ok (.rows rows))).length = rows.length) := by
  refine ⟨?_, ?_, ?_, ?_, ?_, ?_, ?_, ?_⟩
  · intro xs ys bad hbad
    show (xs ++ bad :: ys).filterMap investoItemRecord = (xs ++ ys).filterMap investoItemRecord
    exact filterMap_middle_none _ _ _ _ hbad
  · intro items hall
    show (items.filterMap investoItemRecord).length = items.length
    exact filterMap_length_all_some _ _ hall
  · intro xs ys bad hbad
    show (if (xs ++ bad :: ys).isEmpty then [] else (xs ++ bad :: ys).filterMap sharehubItemRecord)
      = (if (xs ++ ys).isEmpty then [] else (xs ++ ys).filterMap sharehubItemRecord)
    rw [ifEmptyFilterMap, ifEmptyFilterMap]
    exact filterMap_middle_none _ _ _ _ hbad
  · intro items hall
    show (if items.isEmpty then [] else items.filterMap sharehubItemRecord).length = items.length
    rw [ifEmptyFilterMap]
    exact filterMap_length_all_some _ _ hall
  · intro xs ys bad hbad
    show (if (xs ++ bad :: ys).isEmpty then [] else (xs ++ bad :: ys).filterMap nepsealphaRowRecord)
      = (if (xs ++ ys).isEmpty then [] else (xs ++ ys).filterMap nepsealphaRowRecord)
    rw [ifEmptyFilterMap, ifEmptyFilterMap]
    exact filterMap_middle_none _ _ _ _ hbad
  · intro rows hall
    show (if rows.isEmpty then [] else rows.filterMap nepsealphaRowRecord).length = rows.length
    rw [ifEmptyFilterMap]
    exact filterMap_length_all_some _ _ hall
  · intro xs ys bad hbad
    show (if (xs ++ bad :: ys).isEmpty then [] else (xs ++ bad :: ys).filterMap sharesansarRowRecord)
      = (if (xs ++ ys).isEmpty then [] else (xs ++ ys).filterMap sharesansarRowRecord)
    rw [ifEmptyFilterMap, ifEmptyFilterMap]
    exact filterMap_middle_none _ _ _ _ hbad
  · intro rows hall
    show (if rows.isEmpty then [] else rows.filterMap sharesansarRowRecord).length = rows.length
    rw [ifEmptyFilterMap]
    exact filterMap_length_all_some _ _ hall

/-- Witness for C8's theorem: in each source, a listing of one
well-formed item plus one link-less item yields the same output as the
well-formed item alone, and the well-formed listing's output has its
length. -/
theorem malformed_item_skipped_witness :
    scrapeInvestopaperNews (.ok ⟨some ([sampleInvestoItem] ++ investoNoLinkItem :: [])⟩)
      = scrapeInvestopaperNews (.ok ⟨some ([sampleInvestoItem] ++ [])⟩)
  ∧ (scrapeInvestopaperNews (.ok ⟨some [sampleInvestoItem]⟩)).length = [sampleInvestoItem].length
  ∧ scrapeSharehubnepalNews (.ok ⟨some ([sampleShareHubItem] ++ sharehubNoLinkItem :: [])⟩)
      = scrapeSharehubnepalNews (.ok ⟨some ([sampleShareHubItem] ++ [])⟩)
  ∧ (scrapeSharehubnepalNews (.ok ⟨some [sampleShareHubItem]⟩)).length
      = [sampleShareHubItem].length
  ∧ scrapeNepsealphaNews (.ok (.rows ([sampleNepseRow] ++ nepseNoLinkRow :: [])))
      = scrapeNepsealphaNews (.ok (.rows ([sampleNepseRow] ++ [])))
  ∧ (scrapeNepsealphaNews (.ok (.rows [sampleNepseRow]))).length = [sampleNepseRow].length
  ∧ scrapeSharesansarNews (.ok (.rows ([sampleSansarRow] ++ sansarNoLinkRow :: [])))
      = scrapeSharesansarNews (.ok (.rows ([sampleSansarRow] ++ [])))
  ∧ (scrapeSharesansarNews (.ok (.rows [sampleSansarRow]))).length = [sampleSansarRow].length :=
  ⟨malformed_item_skipped.1 [sampleInvestoItem] [] investoNoLinkItem (by decide),
   malformed_item_skipped.2.1 [sampleInvestoItem] (by decide),
   malformed_item_skipped.2.2.1 [sampleShareHubItem] [] sharehubNoLinkItem (by decide),
   malformed_item_skipped.2.2.2.1 [sampleShareHubItem] (by decide),
   malformed_item_skipped.2.2.2.2.1 [sampleNepseRow] [] nepseNoLinkRow (by decide),
   malformed_item_skipped.2.2.2.2.2.1 [sampleNepseRow] (by decide),
   malformed_item_skipped.2.2.2.2.2.2.1 [sampleSansarRow] [] sansarNoLinkRow (by decide),
   malformed_item_skipped.2.2.2.2.2.2.2 [sampleSansarRow] (by decide)⟩

/-- C9, counterexample: titles are not non-empty with a `"No title"`
placeholder. A ShareHubNepal card with a link but no title span yields
a record whose `title` is the empty string. -/
theorem sharehub_empty_title :
    scrapeSharehubnepalNews (.ok ⟨some [sharehubNoTitleItem]⟩) = [sharehubNoTitleRecord]
  ∧ ("title", JValue.str "") ∈ sharehubNoTitleRecord
  ∧ "" ≠ "No title" := by decide

/-- C9 (amended): every record of every extractor carries a `title`
string, but it is not guaranteed non-empty. When the listing yields no
title, ShareHubNepal substitutes the empty string; every record
Investopaper emits takes its title from a present title element (the
`"No title"` placeholder never reaches a record, such items being
skipped for lack of a link), and that markup text may itself be
empty. -/
theorem title_field_behavior :
    (∀ f, ∀ rec ∈ scrapeInvestopaperNews f, ∃ t, ("title", JValue.str t) ∈ rec)
  ∧ (∀ f, ∀ rec ∈ scrapeSharehubnepalNews f, ∃ t, ("title", JValue.str t) ∈ rec)
  ∧ (∀ f, ∀ rec ∈ scrapeNepsealphaNews f, ∃ t, ("title", JValue.str t) ∈ rec)
  ∧ (∀ f, ∀ rec ∈ scrapeSharesansarNews f, ∃ t, ("title", JValue.str t) ∈ rec)
  ∧ (∀ item rec, sharehubItemRecord item = some rec → item.titleSpan = none →
      ("title", JValue.str "") ∈ rec)
  ∧ (∀ item rec, investoItemRecord item = some rec →
      ∃ te, item.titleElement = some te ∧ ("title", JValue.str te.text) ∈ rec) := by
  refine ⟨?_, ?_, ?_, ?_, ?_, ?_⟩
  · intro f rec hrec
    obtain ⟨item, hi⟩ := mem_scrapeInvestopaperNews hrec
    obtain ⟨te, link, d, su, im, hte, hrec'⟩ := investoItemRecord_shape item rec hi
    exact ⟨te.text, by simp [hrec']⟩
  · intro f rec hrec
    obtain ⟨item, hi⟩ := mem_scrapeSharehubnepalNews hrec
    obtain ⟨link, im, hrec'⟩ := sharehubItemRecord_shape item rec hi
    refine ⟨(match item.titleSpan with | some sp => sp.text | none => ""), ?_⟩
    rw [hrec']
    simp
  · intro f rec hrec
    obtain ⟨row, hi⟩ := mem_scrapeNepsealphaNews hrec
    obtain ⟨tl, link, hanch, hrec'⟩ := nepsealphaRowRecord_shape row rec hi
    exact ⟨tl.text, by simp [hrec']⟩
  · intro f rec hrec
    obtain ⟨row, hi⟩ := mem_scrapeSharesansarNews hrec
    obtain ⟨tl, link, hanch, hrec'⟩ := sharesansarRowRecord_shape row rec hi
    exact ⟨tl.text, by simp [hrec']⟩
  · intro item rec hrec hspan
    obtain ⟨link, im, hrec'⟩ := sharehubItemRecord_shape item rec hrec
    rw [hrec', hspan]
    simp
  · intro item rec hrec
    obtain ⟨te, link, d, su, im, hte, hrec'⟩ := investoItemRecord_shape item rec hrec
    exact ⟨te, hte, by simp [hrec']⟩

/-- Witness for C9's amended theorem at concrete records of each
extractor, including the empty-title ShareHubNepal card. -/
theorem title_field_behavior_witness :
    (∃ t, ("title", JValue.str t) ∈ sampleInvestoRecord)
  ∧ (∃ t, ("title", JValue.str t) ∈ sampleShareHubRecord)
  ∧ (∃ t, ("title", JValue.str t) ∈ sampleNepseRecord)
  ∧ (∃ t, ("title", JValue.str t) ∈ sampleSansarRecord)
  ∧ ("title", JValue.str "") ∈ sharehubNoTitleRecord
  ∧ (∃ te, sampleInvestoItem.titleElement = some te
      ∧ ("title", JValue.str te.text) ∈ sampleInvestoRecord) :=
  ⟨title_field_behavior.1 (.ok ⟨some [sampleInvestoItem]⟩) sampleInvestoRecord (by decide),
   title_field_behavior.2.1 (.ok ⟨some [sampleShareHubItem]⟩) sampleShareHubRecord (by decide),
   title_field_behavior.2.2.1 (.ok (.rows [sampleNepseRow])) sampleNepseRecord (by decide),
   title_field_behavior.2.2.2.1 (.ok (.rows [sampleSansarRow])) sampleSansarRecord (by decide),
   title_field_behavior.2.2.2.2.1 sharehubNoTitleItem sharehubNoTitleRecord
      (by decide) (by decide),
   title_field_behavior.2.2.2.2.2 sampleInvestoItem sampleInvestoRecord (by decide)⟩

/-- C10: the list `scrape_news` returns is exactly the list stored as
the written document's `news` field — same records in the same order —
so its length equals the run's total item count; the return value is
the full list, never a bare count. -/
theorem scrape_news_returns_written_list (symbol : String) (inp : ScrapeInputs) :
    (scrape_news symbol inp).returned = (scrape_news symbol inp).doc.news
  ∧ (scrape_news symbol inp).returned.length = (scrape_news symbol inp).doc.news.length :=
  ⟨rfl, rfl⟩

end StockNews
